import Mathlib

/-!
Verification of the AM43 blinds device engine (`lib/AM43Device.js` and its
connection/command pipeline) against its natural-language specification.
The JavaScript source is embedded shallowly: synchronous code segments
become pure state transformers, async operations are parametrized by the
outcome of each awaited transport call, and the events/transport calls an
operation performs are collected as explicit traces.
-/

/-- A JavaScript number as this code produces them: an integer value or NaN
(the result of reading an out-of-range typed-array index through `parseInt`). -/
inductive JSNum where
  | nan : JSNum
  | num : Int → JSNum
deriving DecidableEq

/-- JavaScript `<` on numbers: any comparison involving NaN is false. -/
def jsLt : JSNum → JSNum → Bool
  | JSNum.num a, JSNum.num b => a < b
  | _, _ => false

/-- JavaScript loose `==` between two numbers: NaN equals nothing,
proper numbers compare by value. -/
def jsEq : JSNum → JSNum → Bool
  | JSNum.num a, JSNum.num b => a == b
  | _, _ => false

/-- JavaScript strict `===` between two numbers: on numbers it coincides with
loose `==`; in particular `NaN === NaN` is false. -/
def jsStrictEq : JSNum → JSNum → Bool
  | JSNum.num a, JSNum.num b => a == b
  | _, _ => false

/-- Reading `parseInt(dataArray[i])` from an inbound frame: an in-range index
yields the byte, an out-of-range index yields `undefined`, and
`parseInt(undefined)` is NaN. -/
def readByte (data : List Nat) (i : Nat) : JSNum :=
  match data.get? i with
  | some b => JSNum.num b
  | none => JSNum.nan

/-- Modelled from the spec: the wire constants live in `variables/device`, a
file not present in the sources; the spec (§6) calls them opaque
vendor-defined identifiers. Their concrete bytes never matter below, only
that the frame-classification ids are pairwise distinct; the values used here
are the AM43 vendor values. This one is the source's `AM43_COMMAND_PREFIX`,
the fixed 5-byte magic of §4.1 (renamed after the source's local variable
`startPackage` in `sendCommandAsync`). -/
def AM43_COMMAND_START_PACKAGE : List Nat := [0x00, 0xff, 0x00, 0x00, 0x9a]

/-- Modelled from the spec: opaque vendor command id (§6), declaration file
absent from the sources. -/
def AM43_COMMAND_ID_GET_POSITION : Nat := 0xa7

/-- Modelled from the spec: opaque vendor command id (§6), declaration file
absent from the sources. -/
def AM43_COMMAND_ID_GET_LIGHTSENSOR : Nat := 0xaa

/-- Modelled from the spec: opaque vendor command id (§6), declaration file
absent from the sources. -/
def AM43_COMMAND_ID_GET_BATTERYSTATUS : Nat := 0xa2

/-- Modelled from the spec: opaque vendor notification id (§6), declaration
file absent from the sources. -/
def AM43_NOTIFY_POSITION : Nat := 0xa1

/-- Modelled from the spec: opaque vendor command id (§6), declaration file
absent from the sources. -/
def AM43_COMMAND_ID_SET_MOVE : Nat := 0x0a

/-- Modelled from the spec: opaque vendor command id (§6), declaration file
absent from the sources. -/
def AM43_COMMAND_ID_SET_POSITION : Nat := 0x0d

/-- Modelled from the spec: opaque vendor move payload (§6), declaration file
absent from the sources. -/
def AM43_MOVE_OPEN : Nat := 0xdd

/-- Modelled from the spec: opaque vendor move payload (§6), declaration file
absent from the sources. -/
def AM43_MOVE_CLOSE : Nat := 0xee

/-- Modelled from the spec: opaque vendor move payload (§6), declaration file
absent from the sources. -/
def AM43_MOVE_STOP : Nat := 0xcc

/-- The events the device object emits through its EventEmitter interface,
with the payloads the source passes to `emit`. -/
inductive Event where
  | position : JSNum → Event
  | lightLevel : JSNum → Event
  | batteryPercentage : JSNum → Event
  | direction : Int → Event
  | targetPosition : Option Int → Event
deriving DecidableEq

/-- The mutable fields of `AM43Device` that the state tracker owns
(constructor, lines 70–78): `position`, `targetPosition`,
`direction` (0 down/decreasing, 1 up/increasing, 2 stopped),
`batteryPercentage`, and the stall-detection buffer `lastFewPositions`. -/
structure AM43State where
  position : JSNum
  targetPosition : Option Int
  direction : Int
  batteryPercentage : JSNum
  lastFewPositions : List JSNum
deriving DecidableEq

/-- The constructor's initial values: position 0, no target, direction 2
(stopped), battery 50, empty stall buffer. -/
def initState : AM43State :=
  { position := JSNum.num 0
    targetPosition := none
    direction := 2
    batteryPercentage := JSNum.num 50
    lastFewPositions := [] }

/-- `hasStopped` (lines 196–200): false while the buffer holds fewer than 5
samples, else true iff every sample is strictly `===`-equal to the first. -/
def hasStopped (s : AM43State) : Bool :=
  if s.lastFewPositions.length < 5 then false
  else
    match s.lastFewPositions.head? with
    | none => false
    | some v0 => s.lastFewPositions.all (fun v => jsStrictEq v v0)

/-- The `switch (data[1])` of the notification handler (lines 97–159):
classification by the byte at index 1, each known kind reading one value at a
fixed offset. The two ack/nack kinds and the default case only log. Pushing a
position sample is `unshift` followed by truncating the array length to at
most 5, i.e. keeping the 5 newest samples. -/
def applyFrame (s : AM43State) (data : List Nat) : AM43State × List Event :=
  match data.get? 1 with
  | none => (s, [])
  | some b =>
    if b = AM43_COMMAND_ID_GET_POSITION then
      let p := readByte data 5
      ({ s with position := p, lastFewPositions := (p :: s.lastFewPositions).take 5 },
        [Event.position p])
    else if b = AM43_COMMAND_ID_GET_LIGHTSENSOR then
      (s, [Event.lightLevel (readByte data 4)])
    else if b = AM43_COMMAND_ID_GET_BATTERYSTATUS then
      let p := readByte data 7
      ({ s with batteryPercentage := p }, [Event.batteryPercentage p])
    else if b = AM43_NOTIFY_POSITION then
      let p := readByte data 4
      ({ s with position := p, lastFewPositions := (p :: s.lastFewPositions).take 5 },
        [Event.position p])
    else
      (s, [])

/-- The motion re-evaluation block (lines 161–184), run after the switch on
every inbound frame. The guard `this.targetPosition != null && this.position
!= null` reduces to the target being non-null: `position` always holds a JS
number (possibly NaN), and neither a number nor NaN is loosely equal to null.
Inside, `targetPosition < position` and `position == targetPosition` follow
JS number semantics (false whenever NaN is involved), the target is cleared
on arrival or stall, direction is forced to 2 when the target was cleared,
and each of the two fields is reassigned and emitted only if changed —
direction first, then target. -/
def reevaluate (s : AM43State) : AM43State × List Event :=
  match s.targetPosition with
  | none => (s, [])
  | some t =>
    let dir0 : Int := if jsLt (JSNum.num t) s.position then 1 else 0
    let stopNow : Bool := jsEq s.position (JSNum.num t) || hasStopped s
    let tgt0 : Option Int := if stopNow then none else some t
    let dir1 : Int := if stopNow then 2 else dir0
    let step1 : AM43State × List Event :=
      if dir1 ≠ s.direction then
        ({ s with direction := dir1 }, [Event.direction dir1])
      else (s, [])
    let step2 : AM43State × List Event :=
      if tgt0 ≠ step1.1.targetPosition then
        ({ step1.1 with targetPosition := tgt0 }, [Event.targetPosition tgt0])
      else (step1.1, [])
    (step2.1, step1.2 ++ step2.2)

/-- The whole `data` notification handler (lines 91–185): the classification
switch followed by the motion re-evaluation, with the emitted events
collected in order. -/
def handleData (s : AM43State) (data : List Nat) : AM43State × List Event :=
  let step1 := applyFrame s data
  let step2 := reevaluate step1.1
  (step2.1, step1.2 ++ step2.2)

/-- A GET_POSITION notification frame carrying position `v` at offset 5
(bytes other than the classification byte and the value are immaterial to
the handler). -/
def posFrame (v : Nat) : List Nat :=
  [0x9a, AM43_COMMAND_ID_GET_POSITION, 0x01, 0x01, 0x00, v, 0x00]

/-- JavaScript ToUint8, the conversion a write into a `Uint8Array` performs:
reduction modulo 256 (non-negative even for negative inputs). -/
def toUint8 (n : Int) : Nat := (n % 256).toNat

/-- `calculateCommandChecksum` (lines 391–398): XOR of every byte of the
array except the last one, then XOR with 0xFF. -/
def calculateCommandChecksum (bufferArray : List Nat) : Nat :=
  bufferArray.dropLast.foldl (fun checksum b => checksum ^^^ b) 0 ^^^ 0xff

/-- The frame built by `sendCommandAsync` (lines 363–377): a buffer of
`data.length + 8` bytes holding the 5-byte start package at indices 0–4, the
command id at 5, the payload length at 6, the payload from index 7 on, and at
the last index the checksum computed over the buffer while that last slot
still holds 0 (which `calculateCommandChecksum` excludes anyway). -/
def encodeFrame (commandID : Int) (data : List Int) : List Nat :=
  let body : List Nat :=
    AM43_COMMAND_START_PACKAGE ++ [toUint8 commandID, data.length % 256] ++ data.map toUint8
  body ++ [calculateCommandChecksum (body ++ [0])]

/-- What a motion operation does, in order: the awaited transport write of a
command (recorded with whether it resolved) and the `emit` calls. -/
inductive MotionAction where
  | write : Bool → Nat → List Int → MotionAction
  | emit : Event → MotionAction
deriving DecidableEq

/-- Whether a motion action is an `emit` call. -/
def MotionAction.isEmit : MotionAction → Bool
  | MotionAction.emit _ => true
  | _ => false

/-- `openAsync` (lines 319–326): synchronously set target 0, clear the stall
buffer, set direction 1; then await the MOVE/OPEN write; the two `emit`
calls run only if the awaited write resolved, otherwise the thrown rejection
aborts the method after the write. -/
def openAsync (s : AM43State) (writeOk : Bool) : AM43State × List MotionAction :=
  let s1 := { s with targetPosition := some 0, lastFewPositions := [], direction := 1 }
  if writeOk then
    (s1, [MotionAction.write true AM43_COMMAND_ID_SET_MOVE [(AM43_MOVE_OPEN : Int)],
      MotionAction.emit (Event.direction 1), MotionAction.emit (Event.targetPosition (some 0))])
  else
    (s1, [MotionAction.write false AM43_COMMAND_ID_SET_MOVE [(AM43_MOVE_OPEN : Int)]])

/-- `closeAsync` (lines 328–335): target 100, clear the stall buffer,
direction 0; emits only after the MOVE/CLOSE write resolves. -/
def closeAsync (s : AM43State) (writeOk : Bool) : AM43State × List MotionAction :=
  let s1 := { s with targetPosition := some 100, lastFewPositions := [], direction := 0 }
  if writeOk then
    (s1, [MotionAction.write true AM43_COMMAND_ID_SET_MOVE [(AM43_MOVE_CLOSE : Int)],
      MotionAction.emit (Event.direction 0), MotionAction.emit (Event.targetPosition (some 100))])
  else
    (s1, [MotionAction.write false AM43_COMMAND_ID_SET_MOVE [(AM43_MOVE_CLOSE : Int)]])

/-- `stopAsync` (lines 337–343): target null, direction 2 (the stall buffer
is not touched); emits only after the MOVE/STOP write resolves. -/
def stopAsync (s : AM43State) (writeOk : Bool) : AM43State × List MotionAction :=
  let s1 := { s with targetPosition := none, direction := 2 }
  if writeOk then
    (s1, [MotionAction.write true AM43_COMMAND_ID_SET_MOVE [(AM43_MOVE_STOP : Int)],
      MotionAction.emit (Event.direction 2), MotionAction.emit (Event.targetPosition none)])
  else
    (s1, [MotionAction.write false AM43_COMMAND_ID_SET_MOVE [(AM43_MOVE_STOP : Int)]])

/-- `setPositionAsync` (lines 301–308): synchronously clear the stall buffer
and set the target; then await the SET_POSITION write. Note the method
contains no `emit` call and never touches `direction`; with `trackPosition`
it only schedules the self-terminating `trackCurrentPosition` poll timer,
which itself emits nothing. The only caller passes an integer HomeKit value
mapped into 0–100. -/
def setPositionAsync (s : AM43State) (position : Int) (trackPosition : Bool)
    (writeOk : Bool) : AM43State × List MotionAction :=
  let s1 := { s with lastFewPositions := [], targetPosition := some position }
  let _ := trackPosition
  (s1, [MotionAction.write writeOk AM43_COMMAND_ID_SET_POSITION [position]])

/-- Outcome of a run of `retryConnecting`. -/
inductive ConnectOutcome where
  | resolved : ConnectOutcome
  | failedToConnect : ConnectOutcome
deriving DecidableEq

/-- The body of `retryConnecting`'s while-loop (lines 244–255), parametrized
by the outcome of each successive `attemptConnection` call (`outcomes k` is
whether the k-th attempt, counted from 0, resolves). The loop runs while
`attempt < maxAttempts` with `attempt` starting at 1, so `fuel` is the
number of loop iterations still permitted, `maxAttempts - attempt`. Returns
the outcome, the number of `attemptConnection` calls made, and the list of
`sleep` waits performed (one `sleep(wait)` after every failed attempt). -/
def retryConnectingAux (outcomes : Nat → Bool) (wait : Nat) :
    Nat → Nat → List Nat → ConnectOutcome × Nat × List Nat
  | 0, made, slept => (ConnectOutcome.failedToConnect, made, slept)
  | fuel + 1, made, slept =>
    if outcomes made then (ConnectOutcome.resolved, made + 1, slept)
    else retryConnectingAux outcomes wait fuel (made + 1) (slept ++ [wait])

/-- `retryConnecting` (lines 242–259) at its default arguments
`wait = 250`, `maxAttempts = 5`, with `attempt` initialized to 1: at most
`maxAttempts - 1` loop iterations, then rejection with "Failed to connect". -/
def retryConnecting (outcomes : Nat → Bool) (wait maxAttempts : Nat) :
    ConnectOutcome × Nat × List Nat :=
  retryConnectingAux outcomes wait (maxAttempts - 1) 0 []

/-- The transport/guard fields of the device relevant to the connection
lifecycle: `isConnected`, whether `blindsControlCharacteristic` is non-null,
and the two single-flight promise slots. A promise held in the connect slot
is abstracted to the Boolean it settles with (`some false` is a rejected
promise sitting in the slot). -/
structure LinkState where
  isConnected : Bool
  blindsControlCharacteristic : Bool
  connectingPromise : Option Bool
  discoveringPromise : Bool
deriving DecidableEq

/-- The transport-facing calls a connection-layer operation performs, in
order. -/
inductive LinkAction where
  | retryConnectingRun : LinkAction
  | sleep : Nat → LinkAction
  | serviceDiscovery : LinkAction
  | subscribe : LinkAction
  | characteristicWrite : List Nat → LinkAction
deriving DecidableEq

/-- `reconnect` (lines 261–272), with `fresh` the outcome a newly started
`retryConnecting` run settles with. If the slot already holds a promise the
method returns it and the caller observes that promise's outcome, performing
nothing new. Otherwise the slot is filled and `retryConnecting` awaited: on
resolution `isConnected` is set and the slot cleared; on rejection the
`await` throws, so the lines that set `isConnected` and clear the slot never
run and the slot keeps the (now rejected) promise. The returned Boolean is
whether the method completed without throwing. -/
def reconnect (s : LinkState) (fresh : Bool) : LinkState × Bool × List LinkAction :=
  match s.connectingPromise with
  | some b => (s, b, [])
  | none =>
    if fresh then
      ({ s with isConnected := true, connectingPromise := none }, true,
        [LinkAction.retryConnectingRun])
    else
      ({ s with connectingPromise := some false }, false, [LinkAction.retryConnectingRun])

/-- `setBlindsControlCharacteristic` (lines 85–194) as it affects the
guards: clears both single-flight slots, installs the characteristic and
subscribes to its notifications. -/
def setBlindsControlCharacteristic (s : LinkState) : LinkState × List LinkAction :=
  ({ s with connectingPromise := none, discoveringPromise := false,
            blindsControlCharacteristic := true }, [LinkAction.subscribe])

/-- `serviceDiscoveryAsync` (lines 274–285), with `discOk` the outcome of a
newly started discovery. An in-flight discovery is returned as-is (modelled
as the shared run completing and installing the characteristic). On success
the discovered characteristic is installed via
`setBlindsControlCharacteristic`, which also clears both guards; on failure
the `await` throws with the rejected promise left in the discovery slot. -/
def serviceDiscoveryAsync (s : LinkState) (discOk : Bool) : LinkState × Bool × List LinkAction :=
  if s.discoveringPromise then
    (({ s with connectingPromise := none, discoveringPromise := false,
               blindsControlCharacteristic := true }), true, [])
  else if discOk then
    let step := setBlindsControlCharacteristic s
    (step.1, true, LinkAction.serviceDiscovery :: step.2)
  else
    ({ s with discoveringPromise := true }, false, [LinkAction.serviceDiscovery])

/-- The control flow of `sendCommandAsync` (lines 357–389) around the frame
build: reconnect if not connected (propagating its rejection), build the
frame, then if the control characteristic is null sleep 250 ms and run
service discovery (propagating its rejection), finally write the frame. The
returned Boolean is whether the awaited write resolved. -/
def sendCommandAsync (s : LinkState) (commandID : Int) (data : List Int)
    (fresh discOk writeOk : Bool) : LinkState × Bool × List LinkAction :=
  let step1 := if !s.isConnected then reconnect s fresh else (s, true, [])
  if step1.2.1 = false then (step1.1, false, step1.2.2)
  else
    let s1 := step1.1
    let step2 :=
      if !s1.blindsControlCharacteristic then
        let d := serviceDiscoveryAsync s1 discOk
        (d.1, d.2.1, LinkAction.sleep 250 :: d.2.2)
      else (s1, true, ([] : List LinkAction))
    if step2.2.1 = false then (step2.1, false, step1.2.2 ++ step2.2.2)
    else
      (step2.1, writeOk,
        step1.2.2 ++ step2.2.2 ++ [LinkAction.characteristicWrite (encodeFrame commandID data)])

/-- The device's state after construction (lines 60–88): disconnected, no
characteristic, both guards empty. -/
def initLink : LinkState :=
  { isConnected := false, blindsControlCharacteristic := false,
    connectingPromise := none, discoveringPromise := false }

/-- The synchronous prefix of `reconnect` (lines 262–265, everything before
the first `await`): check the single-flight slot and either attach to the
promise already there or install a newly created `retryConnecting` promise.
Promises are numbered by creation order; `started` counts the
`retryConnecting` runs started so far, and the returned number is the
promise this caller ends up awaiting. Because no `await` separates the check
from the installation, no other event-loop turn can run between them. -/
structure ReconnectSys where
  connectingPromise : Option Nat
  started : Nat
deriving DecidableEq

/-- One caller entering `reconnect`: attach to the pending promise if the
slot is occupied, else start run number `started` and put it in the slot. -/
def reconnectBegin (s : ReconnectSys) : ReconnectSys × Nat :=
  match s.connectingPromise with
  | some k => (s, k)
  | none => ({ connectingPromise := some s.started, started := s.started + 1 }, s.started)

/-- The state right after `setPositionAsync(40)` from the constructed state:
target 40, stall history cleared, direction untouched. -/
def stallStart : AM43State := (setPositionAsync initState 40 true true).1

/-- Feeding `n` consecutive GET_POSITION notifications carrying value `v`
through the data handler. -/
def feedPositionSamples (s : AM43State) (v : Nat) : Nat → AM43State
  | 0 => s
  | n + 1 => (handleData (feedPositionSamples s v n) (posFrame v)).1

/-- The claimed invariant: the direction reads Stopped whenever no motion
target is set. -/
def StoppedInvariant (s : AM43State) : Prop :=
  s.targetPosition = none → s.direction = 2

/-- The re-evaluation block never touches `position`, `batteryPercentage` or
the stall buffer: it only reassigns `direction` and `targetPosition`. -/
theorem reevaluate_fixed_fields (s : AM43State) :
    (reevaluate s).1.position = s.position ∧
    (reevaluate s).1.batteryPercentage = s.batteryPercentage ∧
    (reevaluate s).1.lastFewPositions = s.lastFewPositions := by
  rcases h : s.targetPosition with _ | t
  · simp [reevaluate, h]
  · simp only [reevaluate, h]
    split_ifs <;> simp

/-- The classification switch never touches `targetPosition` or
`direction`: those are only reassigned by the re-evaluation block. -/
theorem applyFrame_fixed_fields (s : AM43State) (d : List Nat) :
    (applyFrame s d).1.targetPosition = s.targetPosition ∧
    (applyFrame s d).1.direction = s.direction := by
  unfold applyFrame
  rcases h : d.get? 1 with _ | b
  · exact ⟨rfl, rfl⟩
  · dsimp only
    split_ifs <;> exact ⟨rfl, rfl⟩

/-- C7: a frame encoded by `sendCommandAsync` is the 5-byte start package,
the command id byte, the payload length byte, the payload bytes, and a
trailing checksum equal to the XOR of every preceding frame byte XOR'd once
more with 0xFF; recomputing `calculateCommandChecksum` over the finished
frame reproduces its last byte. -/
theorem encode_checksum_roundtrip (cmd : Int) (data : List Int) :
    AM43_COMMAND_START_PACKAGE.length = 5 ∧
    encodeFrame cmd data =
      AM43_COMMAND_START_PACKAGE ++ [toUint8 cmd, data.length % 256] ++ data.map toUint8 ++
        [(AM43_COMMAND_START_PACKAGE ++ [toUint8 cmd, data.length % 256] ++
            data.map toUint8).foldl (fun checksum b => checksum ^^^ b) 0 ^^^ 0xff] ∧
    (encodeFrame cmd data).getLast? =
      some (calculateCommandChecksum (encodeFrame cmd data)) := by
  have hdrop : ∀ (l : List Nat) (c : Nat), (l ++ [c]).dropLast = l := by
    intro l c
    simp
  have hlast : ∀ (l : List Nat) (c : Nat), (l ++ [c]).getLast? = some c := by
    intro l c
    simp
  refine ⟨rfl, ?_, ?_⟩
  · simp only [encodeFrame, calculateCommandChecksum, hdrop]
  · simp only [encodeFrame, calculateCommandChecksum, hdrop, hlast]

/-- C3: evaluating `retryConnecting` at its default arguments with every
`attemptConnection` call rejecting: the loop makes only 4 attempts (not the
5 its `maxAttempts = 5` parameter announces), sleeping 250 ms after each
failure including the last, and then rejects with "Failed to connect". -/
theorem retryConnecting_all_fail_makes_four_attempts :
    retryConnecting (fun _ => false) 250 5 =
      (ConnectOutcome.failedToConnect, 4, [250, 250, 250, 250]) := by decide

/-- C1 counterexample: `setPositionAsync(40)` with a successful write emits
no event at all, and `openAsync` with a failing write emits no event either;
moreover the trace of a successful `openAsync` places both emits after the
completed transport write — so the events are neither emitted by
SetPosition, nor before the write completes, nor independently of the
write's outcome. -/
theorem setPositionAsync_emits_nothing :
    ((setPositionAsync initState 40 true true).2.all fun a => !a.isEmit) = true ∧
    ((openAsync initState false).2.all fun a => !a.isEmit) = true ∧
    (openAsync initState true).2 =
      [MotionAction.write true AM43_COMMAND_ID_SET_MOVE [(AM43_MOVE_OPEN : Int)],
        MotionAction.emit (Event.direction 1),
        MotionAction.emit (Event.targetPosition (some 0))] := by decide

/-- C1 amended: each of Open/Close/Stop applies its state updates (target,
direction, and for Open/Close the cleared stall buffer) synchronously and
independently of the write's outcome, but performs its `direction` and
`targetPosition` emits only after the transport write resolves — a rejected
write aborts the method with no events emitted; `setPositionAsync` sets the
target and clears the stall buffer, emits nothing and never touches
`direction`. -/
theorem motion_ops_emit_after_write (s : AM43State) (writeOk : Bool) (p : Int) (track : Bool) :
    ((openAsync s writeOk).2.filter MotionAction.isEmit =
      if writeOk then [MotionAction.emit (Event.direction 1),
        MotionAction.emit (Event.targetPosition (some 0))] else []) ∧
    ((closeAsync s writeOk).2.filter MotionAction.isEmit =
      if writeOk then [MotionAction.emit (Event.direction 0),
        MotionAction.emit (Event.targetPosition (some 100))] else []) ∧
    ((stopAsync s writeOk).2.filter MotionAction.isEmit =
      if writeOk then [MotionAction.emit (Event.direction 2),
        MotionAction.emit (Event.targetPosition none)] else []) ∧
    ((setPositionAsync s p track writeOk).2.filter MotionAction.isEmit = []) ∧
    ((openAsync s writeOk).2.head? =
      some (MotionAction.write writeOk AM43_COMMAND_ID_SET_MOVE [(AM43_MOVE_OPEN : Int)])) ∧
    ((closeAsync s writeOk).2.head? =
      some (MotionAction.write writeOk AM43_COMMAND_ID_SET_MOVE [(AM43_MOVE_CLOSE : Int)])) ∧
    ((stopAsync s writeOk).2.head? =
      some (MotionAction.write writeOk AM43_COMMAND_ID_SET_MOVE [(AM43_MOVE_STOP : Int)])) ∧
    ((setPositionAsync s p track writeOk).2.head? =
      some (MotionAction.write writeOk AM43_COMMAND_ID_SET_POSITION [p])) ∧
    ((openAsync s writeOk).1 =
      { s with targetPosition := some 0, lastFewPositions := [], direction := 1 }) ∧
    ((closeAsync s writeOk).1 =
      { s with targetPosition := some 100, lastFewPositions := [], direction := 0 }) ∧
    ((stopAsync s writeOk).1 = { s with targetPosition := none, direction := 2 }) ∧
    ((setPositionAsync s p track writeOk).1 =
      { s with lastFewPositions := [], targetPosition := some p }) := by
  cases writeOk <;>
    simp [openAsync, closeAsync, stopAsync, setPositionAsync, MotionAction.isEmit]

/-- C2 counterexample: the two-byte frame `[0x9a, 0xa7]` is classified as a
known kind (GET_POSITION) but is too short to hold the value byte at offset
5; the handler nevertheless applies the sample — the stored position changes
from 0 to NaN — and emits a `position` event carrying the non-integer NaN.
No decode error of any kind is reported. -/
theorem truncated_position_frame_applies_nan :
    (handleData initState [0x9a, 0xa7]).1.position ≠ initState.position ∧
    (handleData initState [0x9a, 0xa7]).1.position = JSNum.nan ∧
    Event.position JSNum.nan ∈ (handleData initState [0x9a, 0xa7]).2 := by decide

/-- C2 amended: the code has no `DecodeError`; for a frame of any of the
four value-carrying known kinds that is shorter than the minimum length
needed for its value field, the handler reads an out-of-range index and
obtains NaN. For the two position kinds (polled GET_POSITION, unsolicited
NOTIFY_POSITION) it stores NaN as the position, pushes NaN into the stall
buffer and emits a `position` event carrying NaN; for the battery kind it
stores NaN as the battery percentage and emits a `batteryPercentage` event
carrying NaN; for the light-sensor kind it stores nothing and emits a
`lightLevel` event carrying NaN. -/
theorem truncated_known_frames_apply_nan (s : AM43State) (d : List Nat) :
    (d.get? 1 = some AM43_COMMAND_ID_GET_POSITION → d.length ≤ 5 →
      (handleData s d).1.position = JSNum.nan ∧
      (handleData s d).1.lastFewPositions.head? = some JSNum.nan ∧
      Event.position JSNum.nan ∈ (handleData s d).2) ∧
    (d.get? 1 = some AM43_NOTIFY_POSITION → d.length ≤ 4 →
      (handleData s d).1.position = JSNum.nan ∧
      (handleData s d).1.lastFewPositions.head? = some JSNum.nan ∧
      Event.position JSNum.nan ∈ (handleData s d).2) ∧
    (d.get? 1 = some AM43_COMMAND_ID_GET_BATTERYSTATUS → d.length ≤ 7 →
      (handleData s d).1.batteryPercentage = JSNum.nan ∧
      Event.batteryPercentage JSNum.nan ∈ (handleData s d).2) ∧
    (d.get? 1 = some AM43_COMMAND_ID_GET_LIGHTSENSOR → d.length ≤ 4 →
      (handleData s d).1.position = s.position ∧
      (handleData s d).1.batteryPercentage = s.batteryPercentage ∧
      (handleData s d).1.lastFewPositions = s.lastFewPositions ∧
      Event.lightLevel JSNum.nan ∈ (handleData s d).2) := by
  refine ⟨?_, ?_, ?_, ?_⟩
  · intro h1 hlen
    have hb : readByte d 5 = JSNum.nan := by
      have h5 : d.get? 5 = none := List.get?_eq_none.mpr hlen
      unfold readByte
      rw [h5]
    have happ : applyFrame s d =
        ({ s with position := JSNum.nan,
                  lastFewPositions := (JSNum.nan :: s.lastFewPositions).take 5 },
          [Event.position JSNum.nan]) := by
      unfold applyFrame
      rw [h1]
      dsimp only
      rw [if_pos rfl, hb]
    have hfix := reevaluate_fixed_fields (applyFrame s d).1
    unfold handleData
    refine ⟨?_, ?_, ?_⟩
    · rw [hfix.1, happ]
    · rw [hfix.2.2, happ]
      simp
    · apply List.mem_append_left
      rw [happ]
      simp
  · intro h1 hlen
    have hb : readByte d 4 = JSNum.nan := by
      have h4 : d.get? 4 = none := List.get?_eq_none.mpr hlen
      unfold readByte
      rw [h4]
    have happ : applyFrame s d =
        ({ s with position := JSNum.nan,
                  lastFewPositions := (JSNum.nan :: s.lastFewPositions).take 5 },
          [Event.position JSNum.nan]) := by
      unfold applyFrame
      rw [h1]
      dsimp only
      rw [if_neg (by decide), if_neg (by decide), if_neg (by decide), if_pos rfl, hb]
    have hfix := reevaluate_fixed_fields (applyFrame s d).1
    unfold handleData
    refine ⟨?_, ?_, ?_⟩
    · rw [hfix.1, happ]
    · rw [hfix.2.2, happ]
      simp
    · apply List.mem_append_left
      rw [happ]
      simp
  · intro h1 hlen
    have hb : readByte d 7 = JSNum.nan := by
      have h7 : d.get? 7 = none := List.get?_eq_none.mpr hlen
      unfold readByte
      rw [h7]
    have happ : applyFrame s d =
        ({ s with batteryPercentage := JSNum.nan }, [Event.batteryPercentage JSNum.nan]) := by
      unfold applyFrame
      rw [h1]
      dsimp only
      rw [if_neg (by decide), if_neg (by decide), if_pos rfl, hb]
    have hfix := reevaluate_fixed_fields (applyFrame s d).1
    unfold handleData
    refine ⟨?_, ?_⟩
    · rw [hfix.2.1, happ]
    · apply List.mem_append_left
      rw [happ]
      simp
  · intro h1 hlen
    have hb : readByte d 4 = JSNum.nan := by
      have h4 : d.get? 4 = none := List.get?_eq_none.mpr hlen
      unfold readByte
      rw [h4]
    have happ : applyFrame s d = (s, [Event.lightLevel JSNum.nan]) := by
      unfold applyFrame
      rw [h1]
      dsimp only
      rw [if_neg (by decide), if_pos rfl, hb]
    have hfix := reevaluate_fixed_fields (applyFrame s d).1
    unfold handleData
    refine ⟨?_, ?_, ?_, ?_⟩
    · rw [hfix.1, happ]
    · rw [hfix.2.1, happ]
    · rw [hfix.2.2, happ]
    · apply List.mem_append_left
      rw [happ]
      simp

/-- C2 amended, witnessed at concrete truncated frames of each of the four
value-carrying known kinds. -/
theorem truncated_known_frames_apply_nan_witness :
    ((handleData initState [0x9a, 0xa7, 0x01]).1.position = JSNum.nan ∧
      (handleData initState [0x9a, 0xa7, 0x01]).1.lastFewPositions.head? = some JSNum.nan ∧
      Event.position JSNum.nan ∈ (handleData initState [0x9a, 0xa7, 0x01]).2) ∧
    ((handleData initState [0x9a, 0xa1]).1.position = JSNum.nan ∧
      (handleData initState [0x9a, 0xa1]).1.lastFewPositions.head? = some JSNum.nan ∧
      Event.position JSNum.nan ∈ (handleData initState [0x9a, 0xa1]).2) ∧
    ((handleData initState [0x9a, 0xa2]).1.batteryPercentage = JSNum.nan ∧
      Event.batteryPercentage JSNum.nan ∈ (handleData initState [0x9a, 0xa2]).2) ∧
    ((handleData initState [0x9a, 0xaa]).1.position = initState.position ∧
      (handleData initState [0x9a, 0xaa]).1.batteryPercentage = initState.batteryPercentage ∧
      (handleData initState [0x9a, 0xaa]).1.lastFewPositions = initState.lastFewPositions ∧
      Event.lightLevel JSNum.nan ∈ (handleData initState [0x9a, 0xaa]).2) :=
  ⟨(truncated_known_frames_apply_nan initState [0x9a, 0xa7, 0x01]).1 (by decide) (by decide),
    (truncated_known_frames_apply_nan initState [0x9a, 0xa1]).2.1 (by decide) (by decide),
    (truncated_known_frames_apply_nan initState [0x9a, 0xa2]).2.2.1 (by decide) (by decide),
    (truncated_known_frames_apply_nan initState [0x9a, 0xaa]).2.2.2 (by decide) (by decide)⟩

/-- C4 counterexample: starting with an empty guard slot, a `reconnect` run
whose connect attempt fails throws before reaching the line that clears
`connectingPromise`, so after the failed run the slot still holds the (now
settled, rejected) promise; a subsequent call — even one whose fresh attempt
would succeed — returns that stale rejected result and starts nothing. -/
theorem reconnect_failure_keeps_slot :
    (reconnect initLink false).2.1 = false ∧
    (reconnect initLink false).1.connectingPromise ≠ none ∧
    reconnect (reconnect initLink false).1 true =
      ((reconnect initLink false).1, false, []) := by decide

/-- C4 amended: the in-flight connect guard is cleared when the attempt
succeeds (and whenever a control characteristic is installed, which clears
both guards), but not when the attempt fails: the rejected promise stays in
the slot, and every later `reconnect` call returns that stale rejected
result without starting a fresh attempt. -/
theorem reconnect_guard_cleared_only_on_success (s t : LinkState)
    (h : s.connectingPromise = none) :
    ((reconnect s true).1.connectingPromise = none ∧
      (reconnect s true).2.1 = true ∧ (reconnect s true).1.isConnected = true) ∧
    ((reconnect s false).1.connectingPromise = some false ∧
      (reconnect s false).2.1 = false ∧
      ∀ fresh, reconnect (reconnect s false).1 fresh = ((reconnect s false).1, false, [])) ∧
    (setBlindsControlCharacteristic t).1.connectingPromise = none := by
  refine ⟨?_, ⟨?_, ?_, ?_⟩, rfl⟩ <;> simp [reconnect, setBlindsControlCharacteristic, h]

/-- C4 amended, witnessed at the freshly constructed device state. -/
theorem reconnect_guard_cleared_only_on_success_witness :
    ((reconnect initLink true).1.connectingPromise = none ∧
      (reconnect initLink true).2.1 = true ∧ (reconnect initLink true).1.isConnected = true) ∧
    ((reconnect initLink false).1.connectingPromise = some false ∧
      (reconnect initLink false).2.1 = false ∧
      ∀ fresh, reconnect (reconnect initLink false).1 fresh =
        ((reconnect initLink false).1, false, [])) ∧
    (setBlindsControlCharacteristic initLink).1.connectingPromise = none :=
  reconnect_guard_cleared_only_on_success initLink initLink rfl

/-- C5 counterexample: a successful completion of `reconnect` from the
freshly constructed (disconnected, guard-free) state sets `isConnected` but
performs no service-discovery call at all — `reconnect` never invokes
`serviceDiscoveryAsync`. -/
theorem reconnect_success_initiates_no_discovery :
    (reconnect initLink true).2.1 = true ∧
    (reconnect initLink true).1.isConnected = true ∧
    LinkAction.serviceDiscovery ∉ (reconnect initLink true).2.2 := by decide

/-- C5 amended: discovery is not initiated by `reconnect` itself but by
`sendCommandAsync`, which after its ensure-connected step runs
`serviceDiscoveryAsync` (preceded by a 250 ms sleep) whenever the control
characteristic is null — as it is after construction or any disconnect — so
on the path from a disconnected state the discovery happens after the
successful connect and before the write. -/
theorem sendCommand_discovers_after_connect (cmd : Int) (data : List Int) (writeOk : Bool) :
    sendCommandAsync initLink cmd data true true writeOk =
      ({ isConnected := true, blindsControlCharacteristic := true,
          connectingPromise := none, discoveringPromise := false }, writeOk,
        [LinkAction.retryConnectingRun, LinkAction.sleep 250, LinkAction.serviceDiscovery,
          LinkAction.subscribe, LinkAction.characteristicWrite (encodeFrame cmd data)]) := rfl

/-- Strict equality against a proper number holds exactly for that number. -/
theorem jsStrictEq_num (v : JSNum) (n : Int) :
    jsStrictEq v (JSNum.num n) = true ↔ v = JSNum.num n := by
  cases v <;> simp [jsStrictEq]

/-- Strict self-equality holds exactly for proper numbers (`NaN === NaN` is
false). -/
theorem jsStrictEq_self (v : JSNum) :
    jsStrictEq v v = true ↔ ∃ n : Int, v = JSNum.num n := by
  cases v <;> simp [jsStrictEq]

/-- On states whose stall buffer respects its capacity bound, `hasStopped`
holds exactly when the buffer is five equal proper numbers. -/
theorem hasStopped_eq_true_iff (s : AM43State) (hlen : s.lastFewPositions.length ≤ 5) :
    hasStopped s = true ↔
      ∃ n : Int, s.lastFewPositions = List.replicate 5 (JSNum.num n) := by
  rcases hl : s.lastFewPositions with _ | ⟨a, _ | ⟨b, _ | ⟨c, _ | ⟨d, _ | ⟨e, _ | ⟨f, rest⟩⟩⟩⟩⟩⟩
  · simp [hasStopped, hl, List.replicate]
  · simp [hasStopped, hl, List.replicate]
  · simp [hasStopped, hl, List.replicate]
  · simp [hasStopped, hl, List.replicate]
  · simp [hasStopped, hl, List.replicate]
  · constructor
    · intro h
      unfold hasStopped at h
      rw [hl] at h
      simp [List.all_cons] at h
      obtain ⟨ha, hb, hc, hd, he⟩ := h
      obtain ⟨n, rfl⟩ := (jsStrictEq_self a).mp ha
      rw [(jsStrictEq_num b n).mp hb, (jsStrictEq_num c n).mp hc,
        (jsStrictEq_num d n).mp hd, (jsStrictEq_num e n).mp he]
      exact ⟨n, rfl⟩
    · rintro ⟨n, hrep⟩
      simp [List.replicate] at hrep
      obtain ⟨ha, hb, hc, hd, he⟩ := hrep
      unfold hasStopped
      rw [hl, ha, hb, hc, hd, he]
      simp [jsStrictEq]
  · rw [hl] at hlen
    simp at hlen

/-- C6: from target 40 and an empty stall history, five consecutive position
samples of 55 clear `targetPosition` and stop `direction` exactly at the
fifth sample (both change events fire on that fifth frame), not earlier; and
in general, on any state respecting the buffer's capacity bound of 5,
`hasStopped` is true iff the buffer holds 5 samples that are all equal. -/
theorem stall_detected_at_fifth_sample :
    ((feedPositionSamples stallStart 55 1).targetPosition = some 40 ∧
      (feedPositionSamples stallStart 55 2).targetPosition = some 40 ∧
      (feedPositionSamples stallStart 55 3).targetPosition = some 40 ∧
      (feedPositionSamples stallStart 55 4).targetPosition = some 40 ∧
      (feedPositionSamples stallStart 55 4).direction = 1 ∧
      (feedPositionSamples stallStart 55 5).targetPosition = none ∧
      (feedPositionSamples stallStart 55 5).direction = 2 ∧
      Event.targetPosition none ∈
        (handleData (feedPositionSamples stallStart 55 4) (posFrame 55)).2 ∧
      Event.direction 2 ∈
        (handleData (feedPositionSamples stallStart 55 4) (posFrame 55)).2) ∧
    ∀ s : AM43State, s.lastFewPositions.length ≤ 5 →
      (hasStopped s = true ↔
        ∃ n : Int, s.lastFewPositions = List.replicate 5 (JSNum.num n)) := by
  exact ⟨by decide, fun s hlen => hasStopped_eq_true_iff s hlen⟩

/-- C6, witnessed: the scenario facts together with the `hasStopped`
characterization instantiated at a concrete full buffer. -/
theorem stall_detected_at_fifth_sample_witness :
    (feedPositionSamples stallStart 55 5).targetPosition = none ∧
    (hasStopped { initState with lastFewPositions := List.replicate 5 (JSNum.num 55) } = true ↔
      ∃ n : Int,
        ({ initState with lastFewPositions := List.replicate 5 (JSNum.num 55) } :
            AM43State).lastFewPositions = List.replicate 5 (JSNum.num n)) :=
  ⟨stall_detected_at_fifth_sample.1.2.2.2.2.2.1,
    stall_detected_at_fifth_sample.2
      { initState with lastFewPositions := List.replicate 5 (JSNum.num 55) } (by decide)⟩

/-- C8: the single-flight connect guard. Two `reconnect` entries from the
empty-slot state start exactly one `retryConnecting` run and end up awaiting
the very same promise (so both observe its one eventual settle outcome); any
entry that finds the slot occupied attaches to the promise already there and
starts nothing; and a run whose first `attemptConnection` resolves issues
exactly one transport connect attempt. -/
theorem connect_single_flight :
    ((reconnectBegin (reconnectBegin { connectingPromise := none, started := 0 }).1).1.started
        = 1 ∧
      (reconnectBegin { connectingPromise := none, started := 0 }).2 =
        (reconnectBegin (reconnectBegin { connectingPromise := none, started := 0 }).1).2) ∧
    (∀ (s : ReconnectSys) (k : Nat), s.connectingPromise = some k → reconnectBegin s = (s, k)) ∧
    (∀ outcomes : Nat → Bool, outcomes 0 = true →
      (retryConnecting outcomes 250 5).2.1 = 1) := by
  refine ⟨by decide, ?_, ?_⟩
  · intro s k h
    simp [reconnectBegin, h]
  · intro outcomes h
    simp [retryConnecting, retryConnectingAux, h]

/-- C8, witnessed: attaching to an occupied slot returns the pending
promise, and a first-try-success run makes one transport connect call. -/
theorem connect_single_flight_witness :
    reconnectBegin { connectingPromise := some 0, started := 1 } =
      ({ connectingPromise := some 0, started := 1 }, 0) ∧
    (retryConnecting (fun _ => true) 250 5).2.1 = 1 :=
  ⟨connect_single_flight.2.1 { connectingPromise := some 0, started := 1 } 0 rfl,
    connect_single_flight.2.2 (fun _ => true) rfl⟩

/-- The re-evaluation block preserves the stopped invariant: it only ever
clears the target after having forced direction to 2. -/
theorem reevaluate_stopped_invariant (s : AM43State) (h : StoppedInvariant s) :
    StoppedInvariant (reevaluate s).1 := by
  unfold StoppedInvariant at h ⊢
  rcases ht : s.targetPosition with _ | t
  · simpa [reevaluate, ht] using h ht
  · by_cases hstop : (jsEq s.position (JSNum.num t) || hasStopped s) = true
    · simp only [reevaluate, ht, hstop]
      split_ifs <;> simp_all
    · simp only [reevaluate, ht, hstop]
      split_ifs <;> simp_all

/-- C9: `direction == Stopped` whenever `targetPosition == null` holds in
the constructed state and is preserved by every state-tracker operation:
open, close, stop, set-position (its caller passes integers), and the
processing of any inbound frame (position, battery, light, ack or unknown). -/
theorem stopped_invariant_preserved :
    StoppedInvariant initState ∧
    ∀ s : AM43State, StoppedInvariant s →
      (∀ writeOk, StoppedInvariant (openAsync s writeOk).1) ∧
      (∀ writeOk, StoppedInvariant (closeAsync s writeOk).1) ∧
      (∀ writeOk, StoppedInvariant (stopAsync s writeOk).1) ∧
      (∀ (p : Int) (track writeOk : Bool),
        StoppedInvariant (setPositionAsync s p track writeOk).1) ∧
      (∀ d : List Nat, StoppedInvariant (handleData s d).1) := by
  constructor
  · intro _
    rfl
  · intro s h
    refine ⟨?_, ?_, ?_, ?_, ?_⟩
    · intro w hnone
      cases w <;> simp [openAsync] at hnone
    · intro w hnone
      cases w <;> simp [closeAsync] at hnone
    · intro w
      cases w <;> intro _ <;> rfl
    · intro p track w hnone
      simp [setPositionAsync] at hnone
    · intro d
      unfold handleData
      dsimp only
      apply reevaluate_stopped_invariant
      intro hnone
      rw [(applyFrame_fixed_fields s d).2]
      apply h
      rw [← (applyFrame_fixed_fields s d).1]
      exact hnone

/-- C9, witnessed at the constructed state and a concrete position frame. -/
theorem stopped_invariant_preserved_witness :
    StoppedInvariant (handleData initState (posFrame 55)).1 :=
  (stopped_invariant_preserved.2 initState (fun _ => rfl)).2.2.2.2 (posFrame 55)

/-- C10: an inbound light-sensor frame leaves `position`,
`batteryPercentage` and the stall buffer untouched and emits a `lightLevel`
event carrying the byte at offset 4 of the frame. -/
theorem lightsensor_frame_effect (s : AM43State) (d : List Nat) (b : Nat)
    (h : d.get? 1 = some AM43_COMMAND_ID_GET_LIGHTSENSOR) :
    (handleData s d).1.position = s.position ∧
    (handleData s d).1.batteryPercentage = s.batteryPercentage ∧
    (handleData s d).1.lastFewPositions = s.lastFewPositions ∧
    Event.lightLevel (readByte d 4) ∈ (handleData s d).2 ∧
    (d.get? 4 = some b → Event.lightLevel (JSNum.num b) ∈ (handleData s d).2) := by
  have happ : applyFrame s d = (s, [Event.lightLevel (readByte d 4)]) := by
    unfold applyFrame
    rw [h]
    dsimp only
    rw [if_neg (by decide), if_pos rfl]
  have hfix := reevaluate_fixed_fields (applyFrame s d).1
  unfold handleData
  refine ⟨?_, ?_, ?_, ?_, ?_⟩
  · rw [hfix.1, happ]
  · rw [hfix.2.1, happ]
  · rw [hfix.2.2, happ]
  · apply List.mem_append_left
    rw [happ]
    simp
  · intro h4
    have hrb : readByte d 4 = JSNum.num b := by
      unfold readByte
      rw [h4]
    apply List.mem_append_left
    rw [happ, hrb]
    simp

/-- C10, witnessed at a concrete light-sensor frame carrying 0x37. -/
theorem lightsensor_frame_effect_witness :
    (handleData initState [0x00, 0xaa, 0x00, 0x00, 0x37]).1.position = initState.position ∧
    (handleData initState [0x00, 0xaa, 0x00, 0x00, 0x37]).1.batteryPercentage =
      initState.batteryPercentage ∧
    (handleData initState [0x00, 0xaa, 0x00, 0x00, 0x37]).1.lastFewPositions =
      initState.lastFewPositions ∧
    Event.lightLevel (JSNum.num 0x37) ∈ (handleData initState [0x00, 0xaa, 0x00, 0x00, 0x37]).2 :=
  ⟨(lightsensor_frame_effect initState [0x00, 0xaa, 0x00, 0x00, 0x37] 0x37 (by decide)).1,
    (lightsensor_frame_effect initState [0x00, 0xaa, 0x00, 0x00, 0x37] 0x37 (by decide)).2.1,
    (lightsensor_frame_effect initState [0x00, 0xaa, 0x00, 0x00, 0x37] 0x37 (by decide)).2.2.1,
    (lightsensor_frame_effect initState [0x00, 0xaa, 0x00, 0x00, 0x37] 0x37
        (by decide)).2.2.2.2 (by decide)⟩
